import Mathlib

/-!
# Verification of the linkwise evaluation core

Shallow embedding of the repository's evaluation core:

* `eval/src/pii_patterns.py` — regex-based PII detection and masking,
* `eval/src/sync_checks.py`  — the guardrail rule engine (`SyncChecks`),
* `eval/src/judge.py`        — LLM-as-judge scoring (`Judge`),
* `eval/src/tracing.py`      — the regression comparator (`RegressionTracer`).

Conventions of the embedding:

* Text is `List Char`.  All inputs of interest are ASCII, so Python's
  Unicode-aware `\w`, `\d`, `\s` are embedded with their ASCII meaning.
* Python regular expressions are embedded with a small backtracking
  matcher (`RE`, `mrun`).  Alternation prefers the left branch and
  quantifiers are greedy with backtracking, matching CPython `re`
  semantics; `finditer` scans left to right and resumes after each
  match, so it yields the same matches as CPython.
* Python `float` arithmetic is embedded as `ℚ`; every number the code
  manipulates (rubric weights, scores, thresholds) is exactly
  representable, and no claim depends on rounding behaviour.
* Fallible Python code (code that can raise) is embedded in
  `Except String`; a raised exception is `.error`.
* Wall-clock latency fields (`latency_ms`, `timings_ms`) are dropped:
  no claim mentions them and they carry no logic.
-/

deriving instance DecidableEq for Except

namespace Linkwise

/-- ASCII word character, Python's `\w` on ASCII text. -/
def isWordChar (c : Char) : Bool :=
  c.isAlpha || c.isDigit || c = '_'

/-- Python's `\s` (ASCII): space, tab, newline, carriage return,
vertical tab, form feed. -/
def isPySpace (c : Char) : Bool :=
  c = ' ' || c = '\t' || c = '\n' || c = '\r' ||
  c = '\x0b' || c = '\x0c'

/-- `\b` holds at position `i` of `s` iff exactly one of the character
before `i` and the character at `i` is a word character. -/
def wbAt (s : List Char) (i : Nat) : Bool :=
  let left := match i with
    | 0 => false
    | j + 1 => ((s.get? j).map isWordChar).getD false
  let right := ((s.get? i).map isWordChar).getD false
  left != right

/-- Regular-expression syntax used by the patterns of the repository:
character classes, sequencing, alternation, counted repetition
(`rep r lo none` is `{lo,}`, `rep r lo (some hi)` is `{lo,hi}`), and
the word-boundary assertion `\b`. -/
inductive RE where
  | eps : RE
  | cls (p : Char → Bool) : RE
  | seq (a b : RE) : RE
  | alt (a b : RE) : RE
  | rep (a : RE) (lo : Nat) (hi : Option Nat) : RE
  | wb : RE

/-- Backtracking matcher in continuation-passing style.  `mrun fuel s r
i k` tries to match `r` in `s` starting at `i` and passes the end
position to `k`; the first success in backtracking order is returned,
which is exactly CPython's leftmost-greedy strategy (left alternative
first, repetitions as long as possible first).  `fuel` bounds the
recursion depth; every pattern of the repository consumes at least one
character per repetition step, so a fuel linear in the text length
suffices. -/
def mrun : Nat → List Char → RE → Nat → (Nat → Option Nat) → Option Nat
  | 0, _, _, _, _ => none
  | fuel + 1, s, r, i, k =>
    match r with
    | .eps => k i
    | .wb => if wbAt s i then k i else none
    | .cls p =>
      match s.get? i with
      | some c => if p c then k (i + 1) else none
      | none => none
    | .seq a b => mrun fuel s a i (fun j => mrun fuel s b j k)
    | .alt a b =>
      match mrun fuel s a i k with
      | some e => some e
      | none => mrun fuel s b i k
    | .rep a lo hi =>
      match lo with
      | n + 1 =>
        mrun fuel s a i (fun j => mrun fuel s (.rep a n (hi.map (· - 1))) j k)
      | 0 =>
        match hi with
        | some 0 => k i
        | _ =>
          match mrun fuel s a i
              (fun j => if j ≤ i then none
                        else mrun fuel s (.rep a 0 (hi.map (· - 1))) j k) with
          | some e => some e
          | none => k i

/-- Fuel that dominates the recursion depth of `mrun` for the patterns
of this repository on a text of length `n`. -/
def matchFuel (n : Nat) : Nat := 64 * (n + 8)

/-- Attempt a match of `r` at position `i`; returns the end position of
the leftmost-greedy match, like CPython `pattern.match` at `pos`. -/
def matchAt (s : List Char) (r : RE) (i : Nat) : Option Nat :=
  mrun (matchFuel s.length) s r i some

/-- `finditer`: scan positions left to right, emit each (start, end)
match, and resume at the match end (all patterns here consume at least
one character, matching CPython's resumption rule). -/
def finditerGo (s : List Char) (r : RE) : Nat → Nat → List (Nat × Nat)
  | _, 0 => []
  | i, rem + 1 =>
    if i + 1 > s.length + 1 then []
    else
      match matchAt s r i with
      | some e =>
        if i < e then (i, e) :: finditerGo s r e rem
        else (i, e) :: finditerGo s r (i + 1) rem
      | none => finditerGo s r (i + 1) rem

def finditer (s : List Char) (r : RE) : List (Nat × Nat) :=
  finditerGo s r 0 (s.length + 1)

/-- `pattern.search(text) is not None`. -/
def research (s : List Char) (r : RE) : Bool :=
  (List.range (s.length + 1)).any fun i => (matchAt s r i).isSome

/-- Case-sensitive literal character. -/
def rch (c : Char) : RE := .cls (fun x => x = c)

/-- Case-insensitive literal character (`re.IGNORECASE`). -/
def rchi (c : Char) : RE := .cls (fun x => x.toLower = c.toLower)

/-- Sequence a list of regexes. -/
def rcat (rs : List RE) : RE := rs.foldr .seq .eps

/-- Case-sensitive literal string. -/
def rstr (t : String) : RE := rcat (t.data.map rch)

/-- Case-insensitive literal string. -/
def rstri (t : String) : RE := rcat (t.data.map rchi)

/-- Left-leaning alternation of a nonempty list of regexes, first
alternative preferred (Python `a|b|c`). -/
def ralt : List RE → RE
  | [] => .cls (fun _ => false)
  | [r] => r
  | r :: rs => .alt r (ralt rs)

def rdigit : RE := .cls Char.isDigit
def ralpha : RE := .cls Char.isAlpha
def rspace : RE := .cls isPySpace
/-- `.` — any character but newline. -/
def rdot : RE := .cls (fun c => c ≠ '\n')
def rplus (r : RE) : RE := .rep r 1 none
def rstar (r : RE) : RE := .rep r 0 none
def ropt (r : RE) : RE := .rep r 0 (some 1)

def isAlnum (c : Char) : Bool := c.isAlpha || c.isDigit

/-! ## `eval/src/pii_patterns.py` — `PIIPatterns._compile_patterns` -/

/-- `\b[A-Za-z0-9._%+-]+@[A-Za-z0-9.-]+\.[A-Z|a-z]{2,}\b` (IGNORECASE is
set but the classes already cover both cases; the TLD class literally
contains `|`). -/
def email_pattern : RE :=
  rcat [.wb,
        rplus (.cls fun c => isAlnum c || c = '.' || c = '_' || c = '%' || c = '+' || c = '-'),
        rch '@',
        rplus (.cls fun c => isAlnum c || c = '.' || c = '-'),
        rch '.',
        .rep (.cls fun c => c.isAlpha || c = '|') 2 none,
        .wb]

/-- The five Dutch phone formats, unioned with `|` in source order:
`\b06[-\s]?[0-9]{8}\b`, `\b\+31[-\s]?6[-\s]?[0-9]{8}\b`,
`\b0031[-\s]?6[-\s]?[0-9]{8}\b`, `\b0[0-9]{2,3}[-\s]?[0-9]{6,7}\b`,
`\b\+31[-\s]?[0-9]{2,3}[-\s]?[0-9]{6,7}\b`. -/
def phone_sep : RE := ropt (.cls fun c => c = '-' || isPySpace c)

def phone_pattern : RE :=
  ralt
    [rcat [.wb, rstr "06", phone_sep, .rep rdigit 8 (some 8), .wb],
     rcat [.wb, rch '+', rstr "31", phone_sep, rch '6', phone_sep,
           .rep rdigit 8 (some 8), .wb],
     rcat [.wb, rstr "0031", phone_sep, rch '6', phone_sep,
           .rep rdigit 8 (some 8), .wb],
     rcat [.wb, rch '0', .rep rdigit 2 (some 3), phone_sep,
           .rep rdigit 6 (some 7), .wb],
     rcat [.wb, rch '+', rstr "31", phone_sep, .rep rdigit 2 (some 3),
           phone_sep, .rep rdigit 6 (some 7), .wb]]

/-- `\b[A-Z]{2}[0-9]{2}[A-Z0-9]{4,30}\b` with IGNORECASE, so the letter
classes accept both cases. -/
def iban_pattern : RE :=
  rcat [.wb, .rep ralpha 2 (some 2), .rep rdigit 2 (some 2),
        .rep (.cls isAlnum) 4 (some 30), .wb]

/-- LinkedIn URL alternation (IGNORECASE):
`https?://(?:www\.)?linkedin\.com/in/[A-Za-z0-9._-]+/?` and the
`company` variant, each with and without the scheme. -/
def linkedin_name_cls : RE := .cls fun c => isAlnum c || c = '.' || c = '_' || c = '-'

def linkedin_tail (kind : String) : RE :=
  rcat [rstri "linkedin.com/", rstri kind, rch '/', rplus linkedin_name_cls,
        ropt (rch '/')]

def linkedin_scheme : RE :=
  rcat [rstri "http", ropt (rchi 's'), rstr "://", ropt (rstri "www.")]

def linkedin_pattern : RE :=
  ralt
    [rcat [linkedin_scheme, linkedin_tail "in"],
     rcat [linkedin_scheme, linkedin_tail "company"],
     linkedin_tail "in",
     linkedin_tail "company"]

/-- `\b[A-Z]{2}[-]?[0-9]{3}[-]?[A-Z]{2}\b` with IGNORECASE. -/
def rijbewijs_pattern : RE :=
  rcat [.wb, .rep ralpha 2 (some 2), ropt (rch '-'),
        .rep rdigit 3 (some 3), ropt (rch '-'), .rep ralpha 2 (some 2), .wb]

/-- `\b(?:[0-9]{4}[-\s]?){3}[0-9]{4}\b`. -/
def creditcard_pattern : RE :=
  rcat [.wb,
        .rep (rcat [.rep rdigit 4 (some 4), phone_sep]) 3 (some 3),
        .rep rdigit 4 (some 4), .wb]

/-- `\b(?:[0-9]{1,3}\.){3}[0-9]{1,3}\b`. -/
def ip_pattern : RE :=
  rcat [.wb,
        .rep (rcat [.rep rdigit 1 (some 3), rch '.']) 3 (some 3),
        .rep rdigit 1 (some 3), .wb]

/-- `\b(?:sk-|pk-|api[_-]?key)[A-Za-z0-9_-]{20,}\b` with IGNORECASE. -/
def api_key_pattern : RE :=
  rcat [.wb,
        ralt [rstri "sk-", rstri "pk-",
              rcat [rstri "api", ropt (.cls fun c => c = '_' || c = '-'),
                    rstri "key"]],
        .rep (.cls fun c => isAlnum c || c = '_' || c = '-') 20 none,
        .wb]

/-! ## `PIIPatterns.find_all_pii` / `mask_pii` / `_validate_bsn` -/

/-- `PIIMatch` from `pii_patterns.py` (Lean reserves `end`, hence
`stop`; `mtext` is the matched substring `match`). -/
structure PIIMatch where
  type : String
  mtext : List Char
  start : Nat
  stop : Nat
  masked_replacement : List Char
  deriving DecidableEq, Repr

/-- The substring `t[i:j]` (half-open, like Python slicing). -/
def slice (t : List Char) (i j : Nat) : List Char := (t.drop i).take (j - i)

def matchesOf (t : List Char) (r : RE) (ty : String) (repl : String) :
    List PIIMatch :=
  (finditer t r).map fun p =>
    ⟨ty, slice t p.1 p.2, p.1, p.2, repl.data⟩

/-- Digit value of an ASCII digit character (`int(digit)` on one
character). -/
def digitVal (c : Char) : Nat := c.toNat - 48

/-- `PIIPatterns._validate_bsn` — the 11-proef: `len(bsn) != 9 or not
bsn.isdigit()` rejects, otherwise the first 8 digits are summed with
descending weights `9 - i`, and the 9th digit must equal the remainder
mod 11 when it is below 2, else `11 - remainder`. -/
def validate_bsn (bsn : List Char) : Bool :=
  if bsn.length ≠ 9 || !(bsn.all Char.isDigit) then false
  else
    let total := ((bsn.take 8).enum).foldl
      (fun t p => t + digitVal p.2 * (9 - p.1)) 0
    let remainder := total % 11
    if remainder < 2 then digitVal (bsn.getD 8 '0') == remainder
    else digitVal (bsn.getD 8 '0') == 11 - remainder

/-- Position `i` is a match of the BSN pattern `\b[0-9]{9}\b`: nine
digits starting at `i`, with a word boundary on each side.  Two such
matches can never overlap (an interior start position is preceded by a
digit, so its left `\b` fails), hence `finditer` on this pattern yields
exactly these positions in ascending order. -/
def bsn_candidate_at (t : List Char) (i : Nat) : Bool :=
  (slice t i (i + 9)).length == 9 && (slice t i (i + 9)).all Char.isDigit &&
    wbAt t i && wbAt t (i + 9)

def bsn_matches (t : List Char) : List PIIMatch :=
  (((List.range (t.length + 1)).filter (bsn_candidate_at t)).filter
      (fun i => validate_bsn (slice t i (i + 9)))).map fun i =>
    ⟨"bsn", slice t i (i + 9), i, i + 9, "[BSN_MASKED]".data⟩

/-- Stable insertion into a list sorted ascending by `key`: the new
element goes after existing elements with an equal key. -/
def insert_by_start (x : PIIMatch) : List PIIMatch → List PIIMatch
  | [] => [x]
  | y :: ys =>
    if y.start ≤ x.start then y :: insert_by_start x ys else x :: y :: ys

/-- Stable sort ascending by `start` — Python's `list.sort(key=lambda
x: x.start)` is a stable sort, and every stable sort by the same key
returns the same list, so this insertion sort is the exact embedding
of it. -/
def sort_by_start (ms : List PIIMatch) : List PIIMatch :=
  ms.foldl (fun acc m => insert_by_start m acc) []

/-- The per-category matches of `find_all_pii` in source order (the
disabled postcode detector is omitted, as in the source).  The IBAN
category keeps only matches of total length ≥ 15. -/
def all_category_matches (t : List Char) : List PIIMatch :=
  matchesOf t email_pattern "email" "[EMAIL_MASKED]" ++
  matchesOf t phone_pattern "phone" "[PHONE_MASKED]" ++
  (matchesOf t iban_pattern "iban" "[IBAN_MASKED]").filter
    (fun m => 15 ≤ m.mtext.length) ++
  matchesOf t linkedin_pattern "linkedin" "[LINKEDIN_MASKED]" ++
  bsn_matches t ++
  matchesOf t rijbewijs_pattern "rijbewijs" "[ID_MASKED]" ++
  matchesOf t creditcard_pattern "credit_card" "[CC_MASKED]" ++
  matchesOf t ip_pattern "ip_address" "[IP_MASKED]" ++
  matchesOf t api_key_pattern "api_key" "[API_KEY_MASKED]"

/-- `PIIPatterns.find_all_pii`: collect the per-category matches, then
sort ascending by start offset. -/
def find_all_pii (t : List Char) : List PIIMatch :=
  sort_by_start (all_category_matches t)

/-- The replacement loop of `mask_pii`: from the last match to the
first, splice the replacement token over `[start, stop)`. -/
def mask_pii_with (t : List Char) (ms : List PIIMatch) : List Char :=
  if ms = [] then t
  else ms.reverse.foldl
    (fun acc m => acc.take m.start ++ m.masked_replacement ++ acc.drop m.stop) t

/-- `PIIPatterns.mask_pii` with `matches=None`: compute the matches
first, then mask. -/
def mask_pii (t : List Char) : List Char :=
  mask_pii_with t (find_all_pii t)

/-! ## `eval/src/sync_checks.py` -/

/-- `PIIDetector.detect_pii`: group the matches by type, keys in order
of first occurrence (Python dict insertion order), values the matched
substrings in match order. -/
def group_pii (ms : List PIIMatch) : List (String × List (List Char)) :=
  ms.foldl
    (fun acc m =>
      if (acc.lookup m.type).isSome then
        acc.map fun p => if p.1 = m.type then (p.1, p.2 ++ [m.mtext]) else p
      else acc ++ [(m.type, [m.mtext])])
    []

def detect_pii (t : List Char) : List (String × List (List Char)) :=
  group_pii (find_all_pii t)

/-- `SyncChecks.check_pii` (latency dropped). -/
structure PiiCheck where
  passed : Bool
  violations : List String
  pii_found : List (String × List (List Char))
  total_pii_instances : Nat
  masked_text : List Char
  deriving DecidableEq

def check_pii (t : List Char) : PiiCheck :=
  let pii_found := detect_pii t
  let violations := (pii_found.filter fun p => p.2 ≠ []).map fun p =>
    "PII " ++ p.1 ++ " gevonden: " ++ toString p.2.length ++ " instances"
  { passed := violations.length = 0
    violations := violations
    pii_found := pii_found
    total_pii_instances := (pii_found.map fun p => p.2.length).sum
    masked_text := if pii_found ≠ [] then mask_pii t else t }

/-- The no-go patterns of `SyncChecks.__init__`, in dict insertion
order, each compiled with IGNORECASE except `emoji` and
`excess_exclam` (whose patterns have no cased characters anyway).  The
emoji class is the codepoint range U+1F600–U+1F64F plus the individual
characters of the source class (rocket U+1F680, sparkles U+2728, fire
U+1F525, thumbs-up U+1F44D, clap U+1F44F, party face U+1F973, heart
U+2764 with variation selector U+FE0F, flexed biceps U+1F4AA; the
smiley faces listed in the source already lie in the range). -/
def emoji_cls : RE :=
  .cls fun c =>
    (0x1F600 ≤ c.toNat && c.toNat ≤ 0x1F64F) ||
    c.toNat ∈ [0x1F680, 0x2728, 0x1F525, 0x1F44D, 0x1F44F,
               0x1F973, 0x2764, 0xFE0F, 0x1F4AA]

def sep_dash_space : RE := ropt (.cls fun c => c = '-' || isPySpace c)

def no_go_patterns : List (String × RE) :=
  [("garantie",
    .alt (rcat [.wb, rstri "garantie",
                ropt (ralt [rstri "s", rstri "vrij"]), .wb])
         (rcat [.wb, rstri "gegarandeerd", .wb])),
   ("garanderen",
    rcat [.wb, rstri "garandeer",
          ropt (ralt [rstri "t", rstri "en", rstri "de", rstri "den"]), .wb]),
   ("risicoloos",
    .alt (rcat [.wb, rstri "risicoloos", .wb])
         (rcat [.wb, rstri "risk", sep_dash_space, rstri "free", .wb])),
   ("zeker_weten",
    ralt [rcat [.wb, rstri "zeker", rplus rspace, rstri "weten", .wb],
          rcat [.wb, rstri "100%"],
          rcat [.wb, rstri "100", ropt rspace, rstri "procent", .wb]]),
   ("we_beloven",
    ralt [rcat [.wb, ralt [rstri "we", rstri "wij", rstri "ik"],
                rplus rspace, rstri "beloof", .wb],
          rcat [.wb, rstri "beloofd", .wb],
          rcat [.wb, rstri "we", rplus rspace, rstri "beloven", .wb]]),
   ("geld_terug",
    .alt (rcat [.wb, rstri "geld", sep_dash_space, rstri "terug", .wb])
         (rcat [.wb, rstri "money", sep_dash_space, rstri "back", .wb])),
   ("hey",
    ralt [rcat [.wb, rstri "hey", .wb], rcat [.wb, rstri "hoi", .wb],
          rcat [.wb, rstri "yo", .wb]]),
   ("emoji", emoji_cls),
   ("excess_exclam", .rep (rch '!') 2 none)]

/-- `SyncChecks.check_no_go_tokens`.  `findall` yields one entry per
match; when a pattern contains a capture group Python reports the
group's text rather than the whole match, which affects only the
reported string, never the number of hits — here the whole matched
substring is recorded. -/
structure NogoCheck where
  passed : Bool
  violations : List String
  found_tokens : List (String × List Char)
  deriving DecidableEq

def check_no_go_tokens (t : List Char) : NogoCheck :=
  let found := no_go_patterns.foldl
    (fun acc kp => acc ++ (finditer t kp.2).map fun p => (kp.1, slice t p.1 p.2))
    []
  { passed := found.length = 0
    violations := found.map fun f =>
      "No-go token " ++ f.1 ++ " gevonden: " ++ String.mk f.2
    found_tokens := found }

/-- The CTA patterns of `SyncChecks.__init__`, in list order, all
IGNORECASE. -/
def cta_patterns : List RE :=
  [rcat [.wb, ralt [rstri "plan", rstri "plannen", rstri "inplannen",
                    rstri "afspreken", rstri "afspraak", rstri "spreken",
                    rstri "bellen", rstri "call", rstri "overleg"], .wb],
   rcat [.wb, ralt [rstri "kennismakingsgesprek", rstri "sparren",
                    rstri "sparring", rstri "kennismaking",
                    rstri "kort gesprek"], .wb],
   rcat [.wb, ralt [rstri "graag uw reactie", rstri "uw reactie",
                    rstri "reageer", rstri "neem contact",
                    rstri "contact op"], .wb],
   rcat [.wb, ralt [rstri "voorkeurstijd", rstri "voorkeursmoment",
                    rstri "voorkeur", rstri "beschikbaar"], .wb],
   rcat [.wb, ralt [rstri "kunt u", rstri "zou u",
                    rcat [rstri "past ", ralt [rstri "u", rstri "het"]],
                    rcat [rstri "wat ",
                          ralt [rstri "zijn", rstri "zijn uw"],
                          rstri " voorkeurstijden"]], .wb],
   rcat [.wb, ralt [rstri "dinsdag", rstri "woensdag", rstri "donderdag",
                    rstri "vrijdag", rstri "maandag"], .wb,
         rstar rdot,
         .wb, ralt [rstri "om", rstri "tussen", rstri "van"], .wb],
   rcat [.wb, ralt [rcat [rstri "stuur", ropt (rstri "t"), rstri " u"],
                    rcat [rstri "laat ", ralt [rstri "u", rstri "het"],
                          rstri " weten"],
                    rcat [rstri "geef", rstar rdot, rstri "door"]], .wb],
   rcat [.wb, ralt [rstri "heeft u tijd", rstri "tijd voor",
                    rstri "20 minuten", rstri "15 minuten",
                    rstri "minuutje"], .wb],
   rcat [.wb, ralt [rstri "bevestig", rstri "bevestigt u",
                    rcat [rstri "plan", rstar rdot, rstri "in"],
                    rcat [rstri "stel", rstar rdot, rstri "voor"]], .wb]]

/-- `SyncChecks.check_cta_present`. -/
structure CtaCheck where
  passed : Bool
  violations : List String
  cta_present : Bool
  deriving DecidableEq

def check_cta_present (t : List Char) : CtaCheck :=
  let cta_found := cta_patterns.any (research t)
  { passed := cta_found
    violations := if cta_found then [] else ["Geen CTA gevonden in tekst"]
    cta_present := cta_found }

/-- Python `str.split()` with no separator: runs of whitespace
separate, leading/trailing whitespace ignored, no empty words. -/
def split_ws_go : List Char → List Char → List (List Char)
  | [], acc => if acc = [] then [] else [acc.reverse]
  | c :: cs, acc =>
    if isPySpace c then
      if acc = [] then split_ws_go cs [] else acc.reverse :: split_ws_go cs []
    else split_ws_go cs (c :: acc)

def split_ws (t : List Char) : List (List Char) := split_ws_go t []

/-- `SyncChecks.check_word_limit`. -/
structure LengthCheck where
  passed : Bool
  violations : List String
  word_count : Nat
  max_words : Nat
  deriving DecidableEq

def check_word_limit (t : List Char) (max_words : Nat) : LengthCheck :=
  let word_count := (split_ws t).length
  let violations :=
    if max_words < word_count then
      ["Tekst heeft " ++ toString word_count ++ " woorden, max " ++
       toString max_words]
    else []
  { passed := violations.length = 0
    violations := violations
    word_count := word_count
    max_words := max_words }

/-- Modelled from the library contract of the external collaborators
`json.loads` and `jsonschema.validate` (their code is not under src):
loading the text either succeeds or raises `json.JSONDecodeError`;
validating a loaded instance either succeeds, raises
`jsonschema.ValidationError` (non-conforming instance), or raises
`jsonschema.SchemaError` (malformed schema — a distinct class, not a
subclass of `ValidationError`).  One outcome value abstracts the pair
(text, schema). -/
inductive JsonOutcome where
  | ok : JsonOutcome
  | decodeError (msg : String) : JsonOutcome
  | validationError (msg : String) : JsonOutcome
  | schemaError (msg : String) : JsonOutcome
  deriving DecidableEq

/-- `SyncChecks.validate_json_schema`: `json.JSONDecodeError` and
`jsonschema.ValidationError` are caught and turned into violations;
`jsonschema.SchemaError` is not among the handlers, so it propagates
(`.error`). -/
structure JsonCheck where
  passed : Bool
  violations : List String
  deriving DecidableEq

def validate_json_schema : JsonOutcome → Except String JsonCheck
  | .ok => .ok { passed := true, violations := [] }
  | .decodeError m =>
    .ok { passed := false, violations := ["Ongeldige JSON: " ++ m] }
  | .validationError m =>
    .ok { passed := false, violations := ["Schema validatie fout: " ++ m] }
  | .schemaError m => .error m

/-- Configuration of `SyncChecks.run_all_checks`.  `json_outcome` is
`none` when no (truthy) schema is supplied; `max_words` follows the
same Python truthiness (`if max_words:`), so `some 0` is inactive. -/
structure RunConfig where
  case_id : String
  phase : String
  max_words : Option Nat
  json_outcome : Option JsonOutcome
  cta_required : Bool
  output_mode : String
  deriving DecidableEq

/-- The per-case record `run_all_checks` returns (latency fields
dropped; the `checks` sub-dict is inlined). -/
structure CaseRecord where
  case_id : String
  phase : String
  output_mode : String
  word_count : Nat
  json_valid : Bool
  json_errors : List String
  length_ok : Bool
  length_over_by : Nat
  nogo_hits : List (String × List Char)
  pii_hits : List (String × List (List Char))
  cta_present : Bool
  policy_claims : List (String × List Char)
  severity : String
  deriving DecidableEq

/-- The JSON-validation step of `run_all_checks`: run
`validate_json_schema` only when a (truthy) schema is supplied; a
`SchemaError` raised inside it propagates. -/
def json_step (cfg : RunConfig) : Except String (Option JsonCheck) :=
  match cfg.json_outcome with
  | some oc => (validate_json_schema oc).map some
  | none => .ok none

/-- The body of `run_all_checks` after the JSON step: run the
remaining checks and assemble the per-case record.  The Python code
fills the result dict and then assigns `result["severity"]`; here the
record is built once with the severity computed from the same
intermediate values. -/
def build_record (t : List Char) (cfg : RunConfig)
    (json_result : Option JsonCheck) : CaseRecord :=
  let pii_result := check_pii t
  let nogo_result := check_no_go_tokens t
  let cta_result := if cfg.cta_required then some (check_cta_present t) else none
  let word_count := (split_ws t).length
  let length_result :=
    match cfg.max_words with
    | some m => if m ≠ 0 then some (check_word_limit t m) else none
    | none => none
  let json_valid := match json_result with | some j => j.passed | none => true
    let json_errors := match json_result with | some j => j.violations | none => []
    let length_ok := match length_result with | some l => l.passed | none => true
    let length_over_by :=
      match cfg.max_words with
      | some m => if m ≠ 0 then word_count - m else 0
      | none => 0
    let nogo_hits := nogo_result.found_tokens
    let pii_hits := pii_result.pii_found
    let cta_present := match cta_result with | some c => c.passed | none => true
    let policy_claims := nogo_result.found_tokens
    let has_json_invalid := match json_result with | some j => !j.passed | none => false
    let has_pii := decide (0 < pii_hits.length)
    let has_policy_claims := decide (0 < policy_claims.length)
    let has_missing_cta := cfg.cta_required && !cta_present
    let has_length_violation := decide (0 < length_over_by)
    let severity :=
      if has_json_invalid || has_pii || has_policy_claims ||
         has_missing_cta || has_length_violation then "fail"
      else if 0 < nogo_hits.length then "warn"
      else "pass"
    { case_id := cfg.case_id
      phase := cfg.phase
      output_mode := cfg.output_mode
      word_count := word_count
      json_valid := json_valid
      json_errors := json_errors
      length_ok := length_ok
      length_over_by := length_over_by
      nogo_hits := nogo_hits
      pii_hits := pii_hits
      cta_present := cta_present
      policy_claims := policy_claims
      severity := severity }

/-- `SyncChecks.run_all_checks`: the JSON step first (whose uncaught
`SchemaError` escapes this function too), then the record. -/
def run_all_checks (t : List Char) (cfg : RunConfig) :
    Except String CaseRecord :=
  match json_step cfg with
  | .error e => .error e
  | .ok json_result => .ok (build_record t cfg json_result)

/-! ## `eval/src/judge.py` -/

/-- `JudgeScore`: one rubric criterion outcome.  Scores and weights
are embedded as `ℚ` (the code converts the score with `float(...)`). -/
structure JudgeScore where
  criterion : String
  score : ℚ
  reason : String
  weight : ℚ
  deriving DecidableEq

/-- `JudgeResult` (the `judge_response` payload dict is carried through
unchanged by the code and read by no claim, so it is not modelled). -/
structure JudgeResult where
  case_id : String
  criterion_scores : List JudgeScore
  weighted_final_score : Option ℚ
  passed : Bool
  failed_judge_parse : Bool
  raw_response : String
  deriving DecidableEq

/-- A parsed judge response: the JSON object abstracted to exactly the
keys `evaluate_single` and `_parse_judge_response` read.  `has_error`
and `has_parse_error` are the membership tests `"error" in response`
and `"parse_error" in response`; `raw_response` is the value of the
`"raw_response"` key; `crits` holds the criterion-keyed entries, each
assumed to be an object with an optional numeric `score` and an
optional string `reason` (the shape the judge prompt contracts for;
`.get` supplies the defaults `0` and `"Geen reden gegeven"`). -/
structure RespEntry where
  score : Option ℚ
  reason : Option String
  deriving DecidableEq

structure JudgeResponse where
  has_error : Bool
  has_parse_error : Bool
  raw_response : Option String
  crits : List (String × RespEntry)
  deriving DecidableEq

/-- `RubricLoader._load_default_rubric`: the five criteria with their
weights, in insertion order. -/
def default_rubric : List (String × ℚ) :=
  [("style_match", 3/10), ("policy_safety", 3/10), ("pii_free", 1/5),
   ("structure_brevity", 1/10), ("personalization", 1/10)]

/-- `Judge.pass_threshold` = 3.5. -/
def pass_threshold : ℚ := 7/2

/-- One iteration of the loop of `Judge._parse_judge_response`: if the
criterion is present in the response, append a `JudgeScore` built with
the `.get` defaults, else skip it. -/
def parse_step (resp : JudgeResponse) (scores : List JudgeScore)
    (cw : String × ℚ) : List JudgeScore :=
  match resp.crits.lookup cw.1 with
  | some entry =>
    scores ++ [⟨cw.1, entry.score.getD 0,
                entry.reason.getD "Geen reden gegeven", cw.2⟩]
  | none => scores

/-- `Judge._parse_judge_response`: for each rubric criterion present in
the response, build a `JudgeScore`; criteria absent from the response
are skipped. -/
def parse_judge_response (resp : JudgeResponse) : List JudgeScore :=
  default_rubric.foldl (parse_step resp) []

/-- Python `str.strip()`: drop leading and trailing whitespace. -/
def py_strip (s : String) : String :=
  String.mk (((s.data.dropWhile isPySpace).reverse.dropWhile isPySpace).reverse)

/-- `Judge._validate_reasons`: every score must have a reason that is
non-empty (`not score.reason`), non-blank after stripping, and not the
placeholder. -/
def validate_reasons (scores : List JudgeScore) : Bool :=
  scores.all fun s =>
    !(s.reason = "" || py_strip s.reason = "" || s.reason = "Geen reden gegeven")

/-- `Judge._calculate_weighted_score`: 0.0 on an empty list, otherwise
the weight-normalised sum (0.0 again if the weights sum to 0). -/
def calculate_weighted_score (scores : List JudgeScore) : ℚ :=
  if scores = [] then 0
  else
    let total_weighted := (scores.map fun s => s.score * s.weight).sum
    let total_weight := (scores.map fun s => s.weight).sum
    if 0 < total_weight then total_weighted / total_weight else 0

/-- Abstract rendering standing in for Python's `str(judge_response)`;
its exact text matters to no claim. -/
def repr_response (resp : JudgeResponse) : String :=
  String.intercalate "," (resp.crits.map Prod.fst)

/-- The delegate model call `client.judge(prompt)` either raises
(transport error) or returns a parsed response; the prompt text only
influences which of these happens, so the outcome is the input of the
embedding. -/
inductive ClientOutcome where
  | raised (msg : String) : ClientOutcome
  | ok (resp : JudgeResponse) : ClientOutcome
  deriving DecidableEq

/-- `Judge.evaluate_single`.  The `try` block spans everything after
the client call; of the code inside it only the client call itself can
raise (`_parse_judge_response` guards itself, and the remaining steps
are total on parsed data), so the `except` branch corresponds exactly
to `ClientOutcome.raised`. -/
def evaluate_single (case_id : String) (outcome : ClientOutcome) :
    JudgeResult :=
  match outcome with
  | .raised msg =>
    { case_id := case_id, criterion_scores := [],
      weighted_final_score := none, passed := false,
      failed_judge_parse := true, raw_response := msg }
  | .ok resp =>
    if resp.has_error && resp.has_parse_error then
      { case_id := case_id, criterion_scores := [],
        weighted_final_score := none, passed := false,
        failed_judge_parse := true,
        raw_response := resp.raw_response.getD "" }
    else
      let criterion_scores := parse_judge_response resp
      if !(validate_reasons criterion_scores) then
        { case_id := case_id, criterion_scores := [],
          weighted_final_score := none, passed := false,
          failed_judge_parse := true,
          raw_response := repr_response resp }
      else
        let weighted_score := calculate_weighted_score criterion_scores
        { case_id := case_id, criterion_scores := criterion_scores,
          weighted_final_score := some weighted_score,
          passed := decide (pass_threshold ≤ weighted_score),
          failed_judge_parse := false, raw_response := "" }

/-! ## `eval/src/tracing.py` — `RegressionTracer._aggregate_scores`
and the promotion decision of `trace_regression_run` -/

/-- The `final_score` field of one regression input row, abstracted to
the four ways `_aggregate_scores` can treat it: `None` (or missing),
the empty string, a value `float(...)` parses, or a value `float(...)`
rejects with `TypeError`/`ValueError` (e.g. the `"PARSE_FAILED"`
marker written by `results_to_csv`). -/
inductive ScoreField where
  | null : ScoreField
  | empty : ScoreField
  | numeric (q : ℚ) : ScoreField
  | nonNumeric (s : String) : ScoreField
  deriving DecidableEq

/-- One regression input row.  The code reads the boolean-like fields
only through `str(item.get(..., "")).lower() == "true"`, so they are
kept as their string renderings. -/
structure RegRow where
  final_score : ScoreField
  passed : String
  failed_judge_parse : String
  deriving DecidableEq

/-- Python `str.lower()`, character by character (ASCII suffices for
the boolean renderings `"True"`/`"False"` this is applied to). -/
def py_lower (s : String) : String := String.mk (s.data.map Char.toLower)

def str_is_true (s : String) : Bool := py_lower s == "true"

/-- The loop of `_aggregate_scores`: rows whose score is `None`, empty
or non-numeric are skipped with `continue` — including their `passed`
and `failed_judge_parse` tallies, which sit after the `continue`. -/
def agg_go : List RegRow → List ℚ → Nat → Nat → List ℚ × Nat × Nat
  | [], scores, p, f => (scores, p, f)
  | item :: rest, scores, p, f =>
    match item.final_score with
    | .null => agg_go rest scores p f
    | .empty => agg_go rest scores p f
    | .nonNumeric _ => agg_go rest scores p f
    | .numeric q =>
      agg_go rest (scores ++ [q])
        (if str_is_true item.passed then p + 1 else p)
        (if str_is_true item.failed_judge_parse then f + 1 else f)

/-- `RegressionTracer._aggregate_scores`: returns (average score,
passed tally, parse-failed tally); the average is 0.0 when no score
parsed. -/
def aggregate_scores (results : List RegRow) : ℚ × Nat × Nat :=
  match agg_go results [] 0 0 with
  | (scores, p, f) =>
    (if scores ≠ [] then scores.sum / scores.length else 0, p, f)

/-- The promotion decision of `trace_regression_run`:
`score_improvement >= 0.25 and parse_failed_b <= parse_failed_a`,
where `score_improvement = avg_b − avg_a`; variant `a` is the
baseline, variant `b` the candidate. -/
def meets_promotion_threshold (results_a results_b : List RegRow) : Bool :=
  match aggregate_scores results_a, aggregate_scores results_b with
  | (avg_a, _, parse_failed_a), (avg_b, _, parse_failed_b) =>
    decide ((1 : ℚ)/4 ≤ avg_b - avg_a) && decide (parse_failed_b ≤ parse_failed_a)

/-! ## Shared lemmas -/

theorem mem_insert_by_start {a x : PIIMatch} {l : List PIIMatch} :
    a ∈ insert_by_start x l ↔ a = x ∨ a ∈ l := by
  induction l with
  | nil => simp [insert_by_start]
  | cons y ys ih =>
    by_cases h : y.start ≤ x.start
    · simp [insert_by_start, h, ih]
      tauto
    · simp [insert_by_start, h]

theorem mem_sort_by_start {a : PIIMatch} {l : List PIIMatch} :
    a ∈ sort_by_start l ↔ a ∈ l := by
  suffices h : ∀ (l acc : List PIIMatch),
      a ∈ l.foldl (fun acc m => insert_by_start m acc) acc ↔
        a ∈ acc ∨ a ∈ l by
    simpa [sort_by_start] using h l []
  intro l
  induction l with
  | nil => simp
  | cons y ys ih =>
    intro acc
    rw [List.foldl_cons, ih, mem_insert_by_start]
    simp
    tauto

theorem mem_matchesOf_type {m : PIIMatch} {t : List Char} {r : RE}
    {ty repl : String} (h : m ∈ matchesOf t r ty repl) : m.type = ty := by
  rcases List.mem_map.mp h with ⟨p, _, rfl⟩
  rfl

theorem mem_bsn_matches_type {m : PIIMatch} {t : List Char}
    (h : m ∈ bsn_matches t) : m.type = "bsn" := by
  rcases List.mem_map.mp h with ⟨p, _, rfl⟩
  rfl

/-- Shared concrete fixtures: the configuration of the PoC-1 CLI runs
(CTA required, no word limit, no schema) and the end-to-end scenario
text. -/
def poc1_config : RunConfig :=
  { case_id := "", phase := "unknown", max_words := none,
    json_outcome := none, cta_required := true, output_mode := "text" }

def e2e_text : List Char :=
  "Bel me op 06-12345678 of mail naar test@example.com, 100% garantie!".data

def nogo_only_text : List Char :=
  "Wij bieden garantie. Plan een afspraak.".data

/-! ## Claims -/

/-- C1, counterexample: on a text whose only violation is a
forbidden-token hit ("garantie") — no PII, valid JSON (no schema), CTA
present ("Plan", "afspraak"), no word limit — `run_all_checks` returns
severity `"fail"`, not `"warn"` as the claim states. -/
theorem C1_counterexample :
    (run_all_checks nogo_only_text poc1_config).map
      (fun r => (r.pii_hits.length, r.json_valid, r.cta_present,
                 r.length_ok, decide (1 ≤ r.nogo_hits.length), r.severity)) =
    .ok (0, true, true, true, true, "fail") := by decide

/-- C1, amended: whenever at least one forbidden-token hit exists, the
returned severity is `"fail"` (never `"warn"`), whatever the other
checks say: `run_all_checks` records the no-go hits a second time as
`policy_claims`, and a non-empty `policy_claims` is one of the
hard-fail conditions, so the `"warn"` branch is unreachable. -/
theorem C1_nogo_hits_force_fail (t : List Char) (cfg : RunConfig)
    (rec : CaseRecord) (h : run_all_checks t cfg = Except.ok rec)
    (hn : rec.nogo_hits ≠ []) : rec.severity = "fail" := by
  unfold run_all_checks at h
  cases hjs : json_step cfg with
  | error e => rw [hjs] at h; exact absurd h (by simp)
  | ok jr =>
    rw [hjs] at h
    have hrec : rec = build_record t cfg jr := by
      cases h
      rfl
    subst hrec
    have hlen : 0 < (check_no_go_tokens t).found_tokens.length := by
      have : (build_record t cfg jr).nogo_hits =
          (check_no_go_tokens t).found_tokens := rfl
      rw [this] at hn
      exact List.length_pos.mpr hn
    have hd : decide (0 < (check_no_go_tokens t).found_tokens.length) = true :=
      decide_eq_true hlen
    show (build_record t cfg jr).severity = "fail"
    unfold build_record
    simp [hd]

/-- C1, witness for the amended theorem at the counterexample text. -/
theorem C1_witness :
    ∃ rec, run_all_checks nogo_only_text poc1_config = Except.ok rec ∧
      rec.nogo_hits ≠ [] ∧ rec.severity = "fail" := by
  refine ⟨build_record nogo_only_text poc1_config none, by decide, by decide, ?_⟩
  exact C1_nogo_hits_force_fail nogo_only_text poc1_config _ (by decide) (by decide)

/-- C7, counterexample: masking is not idempotent.  In
`"a.123456789@x.nl@y.nl"` a valid BSN (`123456789`) sits inside an
email match (`a.123456789@x.nl`); the BSN is replaced first, and the
email replacement then cuts at the stale offset 16, leaking `".nl"` in
front of the remaining `"@y.nl"`.  The masked text
`"[EMAIL_MASKED].nl@y.nl"` contains a fresh email match `"nl@y.nl"`,
so a second pass changes it again. -/
theorem C7_counterexample :
    mask_pii (mask_pii "a.123456789@x.nl@y.nl".data) ≠
      mask_pii "a.123456789@x.nl@y.nl".data := by decide

/-- C7, amended: one masking pass is a fixed point whenever the masked
output contains no further detectable PII (in particular the
replacement tokens themselves match no pattern); with overlapping
matches the stale-offset replacement can leak fragments that do form
new matches, as the counterexample shows. -/
theorem C7_mask_fixed_point_when_clean (t : List Char)
    (h : find_all_pii (mask_pii t) = []) :
    mask_pii (mask_pii t) = mask_pii t := by
  calc mask_pii (mask_pii t)
      = mask_pii_with (mask_pii t) (find_all_pii (mask_pii t)) := rfl
    _ = mask_pii_with (mask_pii t) [] := by rw [h]
    _ = mask_pii t := by simp [mask_pii_with]

/-- C7, witness: a text whose masked form is clean. -/
theorem C7_witness :
    find_all_pii (mask_pii "mail test@example.com".data) = [] ∧
      mask_pii (mask_pii "mail test@example.com".data) =
        mask_pii "mail test@example.com".data :=
  ⟨by decide, C7_mask_fixed_point_when_clean _ (by decide)⟩

/-- C9, counterexample: on the end-to-end scenario input no CTA
pattern matches — the scheduling lexicon contains `bellen`, `plan`,
`call`, … but not the bare imperative `bel` — so `checks.cta_present`
is `false`, not `true` as the claim states. -/
theorem C9_counterexample :
    (run_all_checks e2e_text poc1_config).map (fun r => r.cta_present) =
      .ok false := by decide

/-- C9, amended: the end-to-end scenario with CTA required and no word
limit yields severity `"fail"`, two PII hit groups (phone, then
email), at least one forbidden-token hit ("garantie" and "100%"), and
`cta_present = false` (no pattern matches the bare word "Bel"). -/
theorem C9_end_to_end :
    (run_all_checks e2e_text poc1_config).map
      (fun r => (r.severity, r.pii_hits.length, r.pii_hits.map Prod.fst,
                 decide (1 ≤ r.nogo_hits.length), r.cta_present)) =
    .ok ("fail", 2, ["phone", "email"], true, false) := by decide

/-- Every score produced by the parse loop either was in the
accumulator already or carries the weight of some rubric entry. -/
theorem mem_foldl_parse_step (resp : JudgeResponse)
    (rub : List (String × ℚ)) (init : List JudgeScore) (s : JudgeScore)
    (h : s ∈ rub.foldl (parse_step resp) init) :
    s ∈ init ∨ ∃ cw ∈ rub, s.weight = cw.2 := by
  induction rub generalizing init with
  | nil => exact Or.inl h
  | cons c cs ih =>
    rw [List.foldl_cons] at h
    rcases ih _ h with h' | ⟨cw, hcw, hw⟩
    · rcases hlk : resp.crits.lookup c.1 with _ | entry
      · rw [parse_step, hlk] at h'
        exact Or.inl h'
      · rw [parse_step, hlk] at h'
        rcases List.mem_append.mp h' with h'' | h''
        · exact Or.inl h''
        · refine Or.inr ⟨c, List.mem_cons_self c cs, ?_⟩
          rw [List.mem_singleton.mp h'']
    · exact Or.inr ⟨cw, List.mem_cons_of_mem c hcw, hw⟩

theorem parse_weight_pos (resp : JudgeResponse) (s : JudgeScore)
    (h : s ∈ parse_judge_response resp) : 0 < s.weight := by
  rcases mem_foldl_parse_step resp default_rubric [] s h with h' | ⟨cw, hcw, hw⟩
  · simp at h'
  · rw [hw]
    simp only [default_rubric, List.mem_cons, List.mem_singleton] at hcw
    rcases hcw with rfl | rfl | rfl | rfl | rfl | h0
    · norm_num
    · norm_num
    · norm_num
    · norm_num
    · norm_num
    · simp at h0

theorem parse_total_weight_pos (resp : JudgeResponse)
    (hne : parse_judge_response resp ≠ []) :
    0 < ((parse_judge_response resp).map (fun s => s.weight)).sum := by
  refine List.sum_pos _ ?_ (by simpa using hne)
  intro x hx
  rcases List.mem_map.mp hx with ⟨s, hs, rfl⟩
  exact parse_weight_pos resp s hs

/-- Which client outcomes are failure paths of `evaluate_single`: a
raised transport error, a response carrying the parse-error marker
(both `"error"` and `"parse_error"` keys), or a response whose parsed
scores fail reason validation. -/
def is_failure_path : ClientOutcome → Prop
  | .raised _ => True
  | .ok resp =>
    (resp.has_error && resp.has_parse_error) = true ∨
      validate_reasons (parse_judge_response resp) = false

/-- C2: every `JudgeResult` from `evaluate_single` satisfies
`failed_judge_parse = true → weighted_final_score = none ∧ passed =
false`, and every failure path (client exception, parse-error marker,
failed reason validation) yields `failed_judge_parse = true` — a
result, never a propagated exception (`evaluate_single` is total by
construction: the `except` branch of the source is the `raised`
case). -/
theorem C2_failure_invariant (cid : String) (outcome : ClientOutcome) :
    ((evaluate_single cid outcome).failed_judge_parse = true →
      (evaluate_single cid outcome).weighted_final_score = none ∧
        (evaluate_single cid outcome).passed = false) ∧
    (is_failure_path outcome →
      (evaluate_single cid outcome).failed_judge_parse = true) := by
  cases outcome with
  | raised msg => simp [evaluate_single]
  | ok resp =>
    by_cases hm : (resp.has_error && resp.has_parse_error) = true
    · simp [evaluate_single, hm]
    · rw [Bool.not_eq_true] at hm
      by_cases hv : validate_reasons (parse_judge_response resp) = true
      · constructor
        · intro hf
          simp [evaluate_single, hm, hv] at hf
        · intro hfp
          rcases hfp with hfp | hfp
          · rw [hm] at hfp
            cases hfp
          · rw [hv] at hfp
            cases hfp
      · rw [Bool.not_eq_true] at hv
        simp [evaluate_single, hm, hv]

/-- C2, witness: a transport error at a concrete input. -/
theorem C2_witness :
    (evaluate_single "case-1" (.raised "transport error")).failed_judge_parse
        = true ∧
      (evaluate_single "case-1" (.raised "transport error")).weighted_final_score
        = none ∧
      (evaluate_single "case-1" (.raised "transport error")).passed = false := by
  have h := C2_failure_invariant "case-1" (.raised "transport error")
  have hf := h.2 trivial
  exact ⟨hf, (h.1 hf).1, (h.1 hf).2⟩

/-- C6: on the success path of `evaluate_single` with a non-empty
parsed score list, the weighted final score is `Σ(score·weight) /
Σ(weight)` — the divisor is the actual weight sum, not an assumed 1.0
— and `passed` holds iff that score is at least the fixed threshold
3.5. -/
theorem C6_weighted_score (cid : String) (resp : JudgeResponse)
    (hm : (resp.has_error && resp.has_parse_error) = false)
    (hv : validate_reasons (parse_judge_response resp) = true)
    (hne : parse_judge_response resp ≠ []) :
    (evaluate_single cid (.ok resp)).weighted_final_score =
      some (((parse_judge_response resp).map (fun s => s.score * s.weight)).sum /
            ((parse_judge_response resp).map (fun s => s.weight)).sum) ∧
    ((evaluate_single cid (.ok resp)).passed = true ↔
      (7/2 : ℚ) ≤
        ((parse_judge_response resp).map (fun s => s.score * s.weight)).sum /
          ((parse_judge_response resp).map (fun s => s.weight)).sum) := by
  have hw := parse_total_weight_pos resp hne
  have hcalc : calculate_weighted_score (parse_judge_response resp) =
      ((parse_judge_response resp).map (fun s => s.score * s.weight)).sum /
        ((parse_judge_response resp).map (fun s => s.weight)).sum := by
    unfold calculate_weighted_score
    rw [if_neg hne, if_pos hw]
  simp [evaluate_single, hm, hv, hcalc, pass_threshold]

/-- A fully-filled judge response: every rubric criterion present with
score 5 and a genuine reason. -/
def full_marks_resp : JudgeResponse :=
  { has_error := false, has_parse_error := false, raw_response := none,
    crits := [("style_match", ⟨some 5, some "ok"⟩),
              ("policy_safety", ⟨some 5, some "ok"⟩),
              ("pii_free", ⟨some 5, some "ok"⟩),
              ("structure_brevity", ⟨some 5, some "ok"⟩),
              ("personalization", ⟨some 5, some "ok"⟩)] }

/-- C6, witness at the fully-filled response. -/
theorem C6_witness :
    (evaluate_single "c6" (.ok full_marks_resp)).weighted_final_score =
      some (((parse_judge_response full_marks_resp).map
               (fun s => s.score * s.weight)).sum /
            ((parse_judge_response full_marks_resp).map
               (fun s => s.weight)).sum) ∧
    ((evaluate_single "c6" (.ok full_marks_resp)).passed = true ↔
      (7/2 : ℚ) ≤
        ((parse_judge_response full_marks_resp).map
           (fun s => s.score * s.weight)).sum /
          ((parse_judge_response full_marks_resp).map
             (fun s => s.weight)).sum) :=
  C6_weighted_score "c6" full_marks_resp (by decide) (by decide) (by decide)

/-- No rubric criterion key occurs in the response. -/
def rubric_keys_absent (resp : JudgeResponse) : Bool :=
  default_rubric.all fun cw => (resp.crits.lookup cw.1).isNone

theorem foldl_parse_step_absent (resp : JudgeResponse)
    (rub : List (String × ℚ)) (init : List JudgeScore)
    (h : rub.all (fun cw => (resp.crits.lookup cw.1).isNone) = true) :
    rub.foldl (parse_step resp) init = init := by
  induction rub generalizing init with
  | nil => rfl
  | cons c cs ih =>
    rw [List.all_cons, Bool.and_eq_true] at h
    rw [List.foldl_cons]
    have hstep : parse_step resp init c = init := by
      unfold parse_step
      rcases hlk : resp.crits.lookup c.1 with _ | entry
      · rfl
      · rw [hlk] at h
        simp at h
    rw [hstep]
    exact ih _ h.2

/-- C10, counterexample: a JSON response carrying the parse-error
marker (`"error"` and `"parse_error"` keys) contains none of the
rubric criterion keys, yet `evaluate_single` returns
`failed_judge_parse = true`, not `false` as the claim states. -/
def marker_resp : JudgeResponse :=
  { has_error := true, has_parse_error := true,
    raw_response := some "not json", crits := [] }

theorem C10_counterexample :
    rubric_keys_absent marker_resp = true ∧
      (evaluate_single "c10" (.ok marker_resp)).failed_judge_parse = true := by
  decide

/-- C10, amended: if the response parses as JSON, does not carry the
parse-error marker, and contains none of the rubric criterion keys,
then `evaluate_single` returns `failed_judge_parse = false`, an empty
score list, `weighted_final_score = some 0` (a numeric zero, not
`none`), and `passed = false`: reason validation passes vacuously on
the empty list and the weighted-score computation maps it to 0.0. -/
theorem C10_no_criteria_zero (cid : String) (resp : JudgeResponse)
    (hm : (resp.has_error && resp.has_parse_error) = false)
    (habs : rubric_keys_absent resp = true) :
    evaluate_single cid (.ok resp) =
      { case_id := cid, criterion_scores := [],
        weighted_final_score := some 0, passed := false,
        failed_judge_parse := false, raw_response := "" } := by
  have hp : parse_judge_response resp = [] :=
    foldl_parse_step_absent resp default_rubric [] habs
  simp [evaluate_single, hm, hp, validate_reasons,
        calculate_weighted_score, pass_threshold]

/-- C10, witness: the empty response. -/
def empty_resp : JudgeResponse :=
  { has_error := false, has_parse_error := false, raw_response := none,
    crits := [] }

theorem C10_witness :
    evaluate_single "c10w" (.ok empty_resp) =
      { case_id := "c10w", criterion_scores := [],
        weighted_final_score := some 0, passed := false,
        failed_judge_parse := false, raw_response := "" } :=
  C10_no_criteria_zero "c10w" empty_resp (by decide) (by decide)

/-- C3: the promotion gate holds iff the candidate's average score
exceeds the baseline's by at least 0.25 and the candidate has at most
as many counted parse failures (variant `a` is the baseline, `b` the
candidate). -/
theorem C3_promotion_threshold (results_a results_b : List RegRow) :
    meets_promotion_threshold results_a results_b = true ↔
      ((1 : ℚ)/4 ≤
          (aggregate_scores results_b).1 - (aggregate_scores results_a).1 ∧
        (aggregate_scores results_b).2.2 ≤ (aggregate_scores results_a).2.2) := by
  rcases hA : aggregate_scores results_a with ⟨avg_a, p_a, f_a⟩
  rcases hB : aggregate_scores results_b with ⟨avg_b, p_b, f_b⟩
  rw [meets_promotion_threshold, hA, hB]
  simp

/-- The score a row contributes to the mean, if any: only a
`float`-parseable, non-null, non-empty `final_score`. -/
def row_score : RegRow → Option ℚ := fun r =>
  match r.final_score with
  | .numeric q => some q
  | _ => none

theorem agg_go_spec (results : List RegRow) (scores : List ℚ) (p f : Nat) :
    agg_go results scores p f =
      (scores ++ results.filterMap row_score,
       p + (results.filter (fun r => (row_score r).isSome)).countP
             (fun r => str_is_true r.passed),
       f + (results.filter (fun r => (row_score r).isSome)).countP
             (fun r => str_is_true r.failed_judge_parse)) := by
  induction results generalizing scores p f with
  | nil => simp [agg_go]
  | cons item rest ih =>
    cases hfs : item.final_score with
    | null => simp [agg_go, hfs, ih, row_score]
    | empty => simp [agg_go, hfs, ih, row_score]
    | nonNumeric s => simp [agg_go, hfs, ih, row_score]
    | numeric q =>
      simp only [agg_go, hfs, ih, row_score, List.filterMap_cons,
                 List.filter_cons, Option.isSome_some, if_true,
                 List.countP_cons, Prod.mk.injEq]
      refine ⟨by simp, ?_, ?_⟩ <;>
        · rcases hb : str_is_true item.passed <;>
            rcases hb2 : str_is_true item.failed_judge_parse <;>
              simp [hb, hb2] <;> omega

/-- C4, counterexample: a row whose `final_score` is the empty string
but whose `passed` and `failed_judge_parse` fields are string-encoded
`True` is skipped by the `continue` *before* the tallies, so both
tallies stay 0 — they are not simple tallies over the rows as the
claim states (which would give 1 and 1). -/
def skipped_row : RegRow :=
  { final_score := .empty, passed := "True", failed_judge_parse := "True" }

theorem C4_counterexample :
    (aggregate_scores [skipped_row]).2.1 = 0 ∧
      (aggregate_scores [skipped_row]).2.2 = 0 ∧
      [skipped_row].countP (fun r => str_is_true r.passed) = 1 ∧
      [skipped_row].countP (fun r => str_is_true r.failed_judge_parse) = 1 := by
  decide

/-- C4, amended: the per-variant average is the arithmetic mean over
exactly the rows whose score parses numerically (others excluded, not
zero-counted), and the pass and parse-failure counts are tallies of
the boolean-like fields restricted to those same score-parseable rows
— rows skipped for their score are skipped for the tallies too,
because the tallies sit after the `continue`. -/
theorem C4_aggregation (results : List RegRow) :
    aggregate_scores results =
      (if results.filterMap row_score ≠ [] then
          (results.filterMap row_score).sum /
            ((results.filterMap row_score).length : ℚ)
        else 0,
       (results.filter (fun r => (row_score r).isSome)).countP
         (fun r => str_is_true r.passed),
       (results.filter (fun r => (row_score r).isSome)).countP
         (fun r => str_is_true r.failed_judge_parse)) := by
  unfold aggregate_scores
  rw [agg_go_spec]
  simp

/-- Matches of every non-BSN category carry that category's type tag,
so a `"bsn"`-typed match of `find_all_pii` comes from `bsn_matches`. -/
theorem bsn_typed_mem (t : List Char) (m : PIIMatch)
    (h : m ∈ all_category_matches t) (hty : m.type = "bsn") :
    m ∈ bsn_matches t := by
  unfold all_category_matches at h
  simp only [List.mem_append, or_assoc] at h
  rcases h with h | h | h | h | h | h | h | h | h
  · have hc := mem_matchesOf_type h
    rw [hty] at hc
    exact absurd hc (by decide)
  · have hc := mem_matchesOf_type h
    rw [hty] at hc
    exact absurd hc (by decide)
  · have hc := mem_matchesOf_type (List.mem_filter.mp h).1
    rw [hty] at hc
    exact absurd hc (by decide)
  · have hc := mem_matchesOf_type h
    rw [hty] at hc
    exact absurd hc (by decide)
  · exact h
  · have hc := mem_matchesOf_type h
    rw [hty] at hc
    exact absurd hc (by decide)
  · have hc := mem_matchesOf_type h
    rw [hty] at hc
    exact absurd hc (by decide)
  · have hc := mem_matchesOf_type h
    rw [hty] at hc
    exact absurd hc (by decide)
  · have hc := mem_matchesOf_type h
    rw [hty] at hc
    exact absurd hc (by decide)

/-- C5: at any position where the BSN pattern `\b[0-9]{9}\b` matches
(a 9-digit candidate with word boundaries), `find_all_pii` reports a
match of the national-ID category `"bsn"` starting there if and only
if the candidate passes the 11-proef checksum of `validate_bsn`:
weighted digit sum with descending weights 9..2 over the first 8
digits, modulo 11; check digit equal to the remainder when it is
below 2, else `11 − remainder`. -/
theorem C5_bsn_reported_iff_checksum (t : List Char) (i : Nat)
    (hc : bsn_candidate_at t i = true) :
    (∃ m ∈ find_all_pii t, m.type = "bsn" ∧ m.start = i) ↔
      validate_bsn (slice t i (i + 9)) = true := by
  constructor
  · rintro ⟨m, hm, hty, hst⟩
    have hm' : m ∈ all_category_matches t := mem_sort_by_start.mp hm
    have hb : m ∈ bsn_matches t := bsn_typed_mem t m hm' hty
    rcases List.mem_map.mp hb with ⟨j, hj, rfl⟩
    have hji : j = i := hst
    subst hji
    exact (List.mem_filter.mp hj).2
  · intro hv
    have hlen : i < t.length + 1 := by
      simp only [bsn_candidate_at, Bool.and_eq_true, beq_iff_eq] at hc
      have h9 : (slice t i (i + 9)).length = 9 := hc.1.1.1
      have hmin : min (i + 9 - i) (t.length - i) = 9 := by
        simpa [slice, List.length_take, List.length_drop] using h9
      omega
    refine ⟨⟨"bsn", slice t i (i + 9), i, i + 9, "[BSN_MASKED]".data⟩,
            ?_, rfl, rfl⟩
    apply mem_sort_by_start.mpr
    unfold all_category_matches
    simp only [List.mem_append, or_assoc]
    refine Or.inr (Or.inr (Or.inr (Or.inr (Or.inl ?_))))
    apply List.mem_map.mpr
    refine ⟨i, ?_, rfl⟩
    apply List.mem_filter.mpr
    refine ⟨List.mem_filter.mpr ⟨List.mem_range.mpr hlen, hc⟩, hv⟩

/-- C5, witness: a checksum-valid candidate in running text. -/
def bsn_text : List Char := "nr 123456789 ok".data

theorem C5_witness :
    bsn_candidate_at bsn_text 3 = true ∧
      ∃ m ∈ find_all_pii bsn_text, m.type = "bsn" ∧ m.start = 3 :=
  ⟨by decide,
   (C5_bsn_reported_iff_checksum bsn_text 3 (by decide)).mpr (by decide)⟩

/-- Does the configuration carry a schema whose own validation raises
`SchemaError`? -/
def is_schema_error : Option JsonOutcome → Bool
  | some (.schemaError _) => true
  | _ => false

theorem build_severity_cases (t : List Char) (cfg : RunConfig)
    (jr : Option JsonCheck) :
    (build_record t cfg jr).severity = "pass" ∨
      (build_record t cfg jr).severity = "warn" ∨
      (build_record t cfg jr).severity = "fail" := by
  unfold build_record
  dsimp only
  split_ifs <;> simp

/-- C8, counterexample: with a malformed schema (an outcome in which
`jsonschema.validate` raises `SchemaError`), `run_all_checks` does
raise to the caller — `SchemaError` is not among the caught exception
classes — instead of returning a record. -/
def bad_schema_config : RunConfig :=
  { case_id := "", phase := "unknown", max_words := none,
    json_outcome := some (.schemaError "invalid schema"),
    cta_required := true, output_mode := "text" }

theorem C8_counterexample :
    run_all_checks "x".data bad_schema_config =
      Except.error "invalid schema" := by decide

/-- C8, amended: for every text and configuration whose schema is not
itself malformed (no `SchemaError`), `run_all_checks` never raises:
it returns a complete record whose severity is one of `"pass"`,
`"warn"`, `"fail"` — in particular unparseable JSON text and failed
instance validation are recorded as violations, not raised. -/
theorem C8_total_unless_schema_error (t : List Char) (cfg : RunConfig)
    (h : is_schema_error cfg.json_outcome = false) :
    (run_all_checks t cfg).isOk = true ∧
      ((run_all_checks t cfg).toOption.map (fun r => r.severity) = some "pass" ∨
       (run_all_checks t cfg).toOption.map (fun r => r.severity) = some "warn" ∨
       (run_all_checks t cfg).toOption.map (fun r => r.severity) = some "fail") := by
  have hok : ∃ jr, json_step cfg = .ok jr := by
    unfold json_step
    rcases hoc : cfg.json_outcome with _ | oc
    · exact ⟨none, rfl⟩
    · cases oc with
      | ok => exact ⟨_, rfl⟩
      | decodeError m => exact ⟨_, rfl⟩
      | validationError m => exact ⟨_, rfl⟩
      | schemaError m =>
        rw [hoc] at h
        simp [is_schema_error] at h
  rcases hok with ⟨jr, hjr⟩
  unfold run_all_checks
  rw [hjr]
  refine ⟨rfl, ?_⟩
  rcases build_severity_cases t cfg jr with h1 | h1 | h1 <;>
    simp [Except.toOption, h1]

/-- C8, witness: unparseable JSON input is absorbed into the record. -/
def json_error_config : RunConfig :=
  { case_id := "", phase := "unknown", max_words := none,
    json_outcome := some (.decodeError "Expecting value"),
    cta_required := true, output_mode := "text" }

theorem C8_witness :
    (run_all_checks "niet json".data json_error_config).isOk = true ∧
      ((run_all_checks "niet json".data json_error_config).toOption.map
          (fun r => r.severity) = some "pass" ∨
       (run_all_checks "niet json".data json_error_config).toOption.map
          (fun r => r.severity) = some "warn" ∨
       (run_all_checks "niet json".data json_error_config).toOption.map
          (fun r => r.severity) = some "fail") :=
  C8_total_unless_schema_error "niet json".data json_error_config (by decide)

end Linkwise
